import Mathlib

/-
Verification of the real-time data-ingestion pipeline:
a shallow embedding of `data_generator.py` (synthetic event producer with
rate limiting and graceful shutdown) and `spark_streaming_to_postgres.py`
(validation, deduplication, quarantine, retried sink writes), together with
theorems settling the specified properties.

Randomness, wall-clock time and I/O outcomes are modelled as explicit
inputs (functions from step counters, or sampled values with their range
contracts as hypotheses); Python floats are modelled as rationals.
-/

namespace Ingest

/-! ### Shared configuration (`Config` in spark_streaming_to_postgres.py) -/

namespace Config

def VALID_EVENT_TYPES : List String := ["view", "add_to_cart", "purchase"]

def MAX_RETRIES : Nat := 3

def RETRY_DELAY_SECONDS : Nat := 5

end Config

/-! ### data_generator.py: event-type weights and product catalog -/

/-- The `EVENT_TYPES` dict, in insertion order: relative probabilities of the
three event kinds. -/
def EVENT_TYPES : List (String × ℚ) :=
  [("view", 0.6), ("add_to_cart", 0.3), ("purchase", 0.1)]

/-- The `CATEGORIES` product catalog; each product carries (name, min_price,
max_price). -/
def CATEGORIES : List (String × List (String × ℚ × ℚ)) :=
  [("Electronics",
    [("Wireless Headphones", 79.99, 149.99),
     ("Smartphone Case", 15.99, 45.99),
     ("USB-C Cable", 9.99, 24.99),
     ("Portable Charger", 29.99, 79.99),
     ("Bluetooth Speaker", 39.99, 199.99),
     ("Laptop Stand", 25.99, 89.99),
     ("Webcam HD", 49.99, 129.99),
     ("Wireless Mouse", 19.99, 79.99)]),
   ("Clothing",
    [("Cotton T-Shirt", 14.99, 34.99),
     ("Denim Jeans", 39.99, 89.99),
     ("Running Shoes", 59.99, 149.99),
     ("Winter Jacket", 79.99, 199.99),
     ("Baseball Cap", 12.99, 29.99),
     ("Wool Sweater", 45.99, 99.99)]),
   ("Home & Garden",
    [("LED Desk Lamp", 24.99, 59.99),
     ("Plant Pot Set", 19.99, 49.99),
     ("Throw Blanket", 29.99, 79.99),
     ("Wall Clock", 15.99, 45.99),
     ("Coffee Maker", 49.99, 149.99)]),
   ("Books",
    [("Programming Python", 29.99, 49.99),
     ("Data Science Handbook", 34.99, 54.99),
     ("Mystery Novel", 9.99, 19.99),
     ("Self-Help Guide", 14.99, 24.99),
     ("Cooking Recipe Book", 19.99, 39.99)]),
   ("Sports",
    [("Yoga Mat", 19.99, 49.99),
     ("Dumbbell Set", 39.99, 129.99),
     ("Basketball", 19.99, 39.99),
     ("Tennis Racket", 49.99, 149.99),
     ("Fitness Tracker", 49.99, 199.99)])]

/-! ### data_generator.py: single-event generation -/

/-- Loop body of `select_event_type`: walk the weight table accumulating
`cumulative`, returning the first kind whose cumulative weight reaches the
drawn value; the fallback after the loop is the literal `view`. -/
def selectEventTypeGo (rand : ℚ) : ℚ → List (String × ℚ) → String
  | _, [] => "view"
  | cumulative, (event_type, probability) :: rest =>
    let c := cumulative + probability
    if rand ≤ c then event_type else selectEventTypeGo rand c rest

/-- Model of `select_event_type`: `rand` models the `random.random()` draw. -/
def select_event_type (rand : ℚ) : String :=
  selectEventTypeGo rand 0 EVENT_TYPES

/-- Python `round(x, 2)` on the sampled price (tie direction is irrelevant
to the properties proved here). -/
def round2 (q : ℚ) : ℚ := (round (q * 100) : ℤ) / 100

/-- The first `random.choice` of `select_product`: the category picked by
the drawn index. -/
def selectedCategory (catIdx : Nat) : String × List (String × ℚ × ℚ) :=
  CATEGORIES.getD (catIdx % CATEGORIES.length) ("", [])

/-- The second `random.choice` of `select_product`: the
(name, min_price, max_price) triple picked inside the category. -/
def selectedProduct (catIdx prodIdx : Nat) : String × ℚ × ℚ :=
  (selectedCategory catIdx).2.getD
    (prodIdx % (selectedCategory catIdx).2.length) ("", 0, 0)

/-- Model of `select_product`: `catIdx`/`prodIdx` model the two `random.choice`
draws (uniform indices), `uniform` models `random.uniform`.  Returns
(category, product_name, price). -/
def select_product (uniform : ℚ → ℚ → ℚ) (catIdx prodIdx : Nat) :
    String × String × ℚ :=
  ((selectedCategory catIdx).1,
   (selectedProduct catIdx prodIdx).1,
   round2 (uniform (selectedProduct catIdx prodIdx).2.1
     (selectedProduct catIdx prodIdx).2.2))

/-- Generated event record, with the eight CSV fields of
`generate_event`. -/
structure Event where
  event_id : String
  user_id : String
  product_id : String
  product_name : String
  category : String
  price : ℚ
  event_type : String
  timestamp : String
deriving DecidableEq, Repr

/-- Model of `generate_user_id`: prefix a random hex string, truncated to 8
characters. -/
def generate_user_id (uuidHex : String) : String :=
  "user_" ++ uuidHex.take 8

/-- Model of `generate_product_id`. -/
def generate_product_id (uuidHex : String) : String :=
  "prod_" ++ uuidHex.take 8

/-- Model of `generate_event`: the random draws (`uniform`, the two choice indices,
the `random.random()` value, the uuid strings) and the clock reading are
explicit inputs. -/
def generate_event (uniform : ℚ → ℚ → ℚ) (catIdx prodIdx : Nat) (rand : ℚ)
    (eventUuid userUuid prodUuid now : String) : Event :=
  let sel := select_product uniform catIdx prodIdx
  { event_id := eventUuid
    user_id := generate_user_id userUuid
    product_id := generate_product_id prodUuid
    product_name := sel.2.1
    category := sel.1
    price := sel.2.2
    event_type := select_event_type rand
    timestamp := now }

/-! ### data_generator.py: CSV batch files -/

/-- Column order fixed by `write_events_to_csv`. -/
def csvFieldnames : List String :=
  ["event_id", "user_id", "product_id", "product_name",
   "category", "price", "event_type", "timestamp"]

/-- A written batch file: `DictWriter` emits the header row and then one
row per event. -/
structure CsvFile where
  header : List String
  rows : List Event
deriving DecidableEq, Repr

/-- Model of `write_events_to_csv` (file naming and byte-level encoding are
external I/O; the file content is the header plus the event rows). -/
def write_events_to_csv (events : List Event) : CsvFile :=
  { header := csvFieldnames, rows := events }

/-! ### data_generator.py: RateLimiter -/

/-- State of `RateLimiter` (times as rationals; `events_this_second` and
`events_per_second` are Python ints). -/
structure RateLimiterState where
  events_per_second : Int
  interval : ℚ
  last_event_time : ℚ
  events_this_second : Int
  second_start : ℚ
deriving DecidableEq, Repr

/-- Model of `RateLimiter.__init__`, with `now` the `time.time()` reading. -/
def RateLimiter.init (events_per_second : Int) (now : ℚ) : RateLimiterState :=
  { events_per_second := events_per_second
    interval := if events_per_second > 0 then 1 / (events_per_second : ℚ) else 1
    last_event_time := now
    events_this_second := 0
    second_start := now }

/-- Model of `RateLimiter.wait`.  Here `current_time` is the `time.time()` reading at
entry; `resetTime` is the second `time.time()` reading taken after the
sleep in the limit branch.  Returns the updated state and the duration
actually passed to `time.sleep` (0 when no sleep was performed). -/
def RateLimiter.wait (s : RateLimiterState) (current_time resetTime : ℚ) :
    RateLimiterState × ℚ :=
  let s1 :=
    if current_time - s.second_start ≥ 1 then
      { s with events_this_second := 0, second_start := current_time }
    else s
  let step :=
    if s1.events_this_second ≥ s1.events_per_second then
      let sleep_time := 1 - (current_time - s1.second_start)
      ({ s1 with events_this_second := 0, second_start := resetTime },
        if sleep_time > 0 then sleep_time else 0)
    else (s1, 0)
  ({ step.1 with events_this_second := step.1.events_this_second + 1 }, step.2)

/-! ### data_generator.py: producer loop (`run_generator`)

The cooperative shutdown flag is modelled as a Bool-valued function of an
observation counter `t`: each read of `shutdown_requested` (the outer
`while` test and the per-event test inside the batch-filling `for` loop)
consumes one index.  The duration test of each outer iteration is likewise
an external predicate of its observation point, and the events produced
are supplied by a stream `gen` indexed by a global event counter. -/

/-- The inner `for _ in range(batch_size)` loop: before each event the
shutdown flag is read (index `t`); on shutdown the loop breaks with the
events accumulated so far.  Returns the events and the next observation
index. -/
def fillBatch (shutdown : Nat → Bool) (gen : Nat → Event) :
    Nat → Nat → Nat → List Event × Nat
  | t, _, 0 => ([], t)
  | t, evIdx, n + 1 =>
    if shutdown t then ([], t + 1)
    else
      let rest := fillBatch shutdown gen (t + 1) (evIdx + 1) n
      (gen evIdx :: rest.1, rest.2)

/-- Counters and written files of `run_generator`. -/
structure GenState where
  total_events : Nat
  total_files : Nat
  files : List CsvFile
deriving DecidableEq, Repr

/-- The `while not shutdown_requested` loop of `run_generator`, with
explicit fuel (the Python loop may run forever; every property proved
below holds for every fuel).  A batch file is written only when the
filled event list is non-empty, exactly as the `if events:` guard. -/
def runLoop (shutdown durationHit : Nat → Bool) (gen : Nat → Event)
    (batch_size : Nat) : Nat → Nat → Nat → GenState → GenState
  | 0, _, _, st => st
  | fuel + 1, t, evIdx, st =>
    if shutdown t then st
    else if durationHit t then st
    else
      let filled := fillBatch shutdown gen (t + 1) evIdx batch_size
      if filled.1.isEmpty then
        runLoop shutdown durationHit gen batch_size fuel filled.2
          (evIdx + filled.1.length) st
      else
        runLoop shutdown durationHit gen batch_size fuel filled.2
          (evIdx + filled.1.length)
          { total_events := st.total_events + filled.1.length
            total_files := st.total_files + 1
            files := st.files ++ [write_events_to_csv filled.1] }

/-! ### spark_streaming_to_postgres.py: cleaning and validation

DataFrame rows are lists of nullable cells (`Option`); Spark's
three-valued boolean logic is modelled on `Option Bool`. -/

/-- Spark's `trim`: strip leading and trailing space characters. -/
def sparkTrim (s : String) : String :=
  String.mk (((s.data.dropWhile (· = ' ')).reverse.dropWhile (· = ' ')).reverse)

/-- Spark's `lower` and Python's `str.lower`: lowercase every character. -/
def lowerString (s : String) : String :=
  String.mk (s.data.map Char.toLower)

/-- Kleene conjunction on nullable booleans, as Spark evaluates `&`. -/
def optAnd : Option Bool → Option Bool → Option Bool
  | some false, _ => some false
  | _, some false => some false
  | some true, some true => some true
  | _, _ => none

/-- A parsed timestamp value (the result of `to_timestamp`). -/
structure Timestamp where
  year : Nat
  month : Nat
  day : Nat
  hour : Nat
  minute : Nat
  second : Nat
deriving DecidableEq, Repr

def isLeapYear (y : Nat) : Bool :=
  (y % 4 = 0 && y % 100 ≠ 0) || y % 400 = 0

def daysInMonth (y m : Nat) : Nat :=
  if m = 2 then (if isLeapYear y then 29 else 28)
  else if m = 4 || m = 6 || m = 9 || m = 11 then 30
  else 31

def digitVal (c : Char) : Option Nat :=
  if c.isDigit then some (c.toNat - 48) else none

def twoDigits (a b : Char) : Option Nat := do
  let x ← digitVal a
  let y ← digitVal b
  pure (10 * x + y)

/-- Spark's `to_timestamp(col, 'yyyy-MM-dd HH:mm:ss')`: strict pattern
match with calendar validation, `none` (null) on any parse failure. -/
def to_timestamp (s : String) : Option Timestamp :=
  match s.data with
  | [y1, y2, y3, y4, '-', m1, m2, '-', d1, d2, ' ',
     h1, h2, ':', n1, n2, ':', s1, s2] => do
    let yh ← twoDigits y1 y2
    let yl ← twoDigits y3 y4
    let mo ← twoDigits m1 m2
    let dy ← twoDigits d1 d2
    let hr ← twoDigits h1 h2
    let mi ← twoDigits n1 n2
    let sc ← twoDigits s1 s2
    let yr := 100 * yh + yl
    if 1 ≤ mo ∧ mo ≤ 12 ∧ 1 ≤ dy ∧ dy ≤ daysInMonth yr mo ∧
        hr < 24 ∧ mi < 60 ∧ sc < 60 then
      some ⟨yr, mo, dy, hr, mi, sc⟩
    else none
  | _ => none

/-- A raw CSV row as read with the explicit schema: every column is
nullable; `price` is read as a double. -/
structure RawRecord where
  event_id : Option String
  user_id : Option String
  product_id : Option String
  product_name : Option String
  category : Option String
  price : Option ℚ
  event_type : Option String
  timestamp : Option String
deriving DecidableEq, Repr

/-- A row of `validated_df` before the final column drops: the eight
source columns (strings trimmed, `event_type` lowercased) plus the derived
`event_timestamp`. -/
structure CleanedRecord where
  event_id : Option String
  user_id : Option String
  product_id : Option String
  product_name : Option String
  category : Option String
  price : Option ℚ
  event_type : Option String
  timestamp : Option String
  event_timestamp : Option Timestamp
deriving DecidableEq, Repr

/-- The row-wise transformations of `clean_and_validate_data`: trim the
six listed string columns, lowercase `event_type`, parse `timestamp`. -/
def cleanRecord (r : RawRecord) : CleanedRecord :=
  { event_id := r.event_id.map sparkTrim
    user_id := r.user_id.map sparkTrim
    product_id := r.product_id.map sparkTrim
    product_name := r.product_name.map sparkTrim
    category := r.category.map sparkTrim
    price := r.price
    event_type := (r.event_type.map sparkTrim).map lowerString
    timestamp := r.timestamp
    event_timestamp := r.timestamp.bind to_timestamp }

/-- The `is_valid` column: Spark `isNotNull` always yields a boolean,
`isin` and `>` propagate null. -/
def is_valid_col (r : CleanedRecord) : Option Bool :=
  optAnd (some r.event_id.isSome)
    (optAnd (some r.user_id.isSome)
      (optAnd (some r.product_id.isSome)
        (optAnd (r.event_type.map fun t => Config.VALID_EVENT_TYPES.contains t)
          (optAnd (r.price.map fun p => decide (p > 0))
            (some r.event_timestamp.isSome)))))

/-- Model of `clean_and_validate_data`: the valid partition keeps rows whose flag
is (non-null) true, the invalid partition rows whose flag is (non-null)
false; the column drops are schema-level and are modelled below. -/
def clean_and_validate_data (df : List RawRecord) :
    List CleanedRecord × List CleanedRecord :=
  let validated := df.map cleanRecord
  (validated.filter fun r => is_valid_col r == some true,
   validated.filter fun r => is_valid_col r == some false)

/-! ### spark_streaming_to_postgres.py: schema of each DataFrame

`withColumn` replaces an existing column in place or appends a new one;
`drop` removes the named columns. -/

def withColumnSchema (schema : List String) (name : String) : List String :=
  if schema.contains name then schema else schema ++ [name]

def dropSchema (schema : List String) (names : List String) : List String :=
  schema.filter fun c => !(names.contains c)

/-- Columns of the source CSV schema (`get_event_schema`). -/
def sourceSchema : List String :=
  ["event_id", "user_id", "product_id", "product_name",
   "category", "price", "event_type", "timestamp"]

/-- Schema after the trim loop, the `event_type` lowercase rewrite and the
`event_timestamp` derivation. -/
def cleanedSchema : List String :=
  withColumnSchema
    (withColumnSchema
      (List.foldl withColumnSchema sourceSchema
        ["event_id", "user_id", "product_id", "product_name",
         "category", "event_type"])
      "event_type")
    "event_timestamp"

/-- Schema after the `is_valid` flag is added. -/
def validatedSchema : List String :=
  withColumnSchema cleanedSchema "is_valid"

/-- Schema of `valid_df`: `drop('is_valid', 'timestamp')`. -/
def validSchema : List String :=
  dropSchema validatedSchema ["is_valid", "timestamp"]

/-- Schema of `invalid_df` (the quarantined rows): `drop('is_valid')`. -/
def invalidSchema : List String :=
  dropSchema validatedSchema ["is_valid"]

/-! ### spark_streaming_to_postgres.py: deduplication -/

/-- Spark `dropDuplicates` on a single-partition batch: keep the first row seen
for each key. -/
def dropDupByKey {α κ : Type} [DecidableEq κ] (key : α → κ) :
    List κ → List α → List α
  | _, [] => []
  | seen, r :: rs =>
    if key r ∈ seen then dropDupByKey key seen rs
    else r :: dropDupByKey key (key r :: seen) rs

/-- Model of `deduplicate_events`: `df.dropDuplicates(['event_id'])`. -/
def deduplicate_events (df : List CleanedRecord) : List CleanedRecord :=
  dropDupByKey (fun r => r.event_id) [] df

/-! ### spark_streaming_to_postgres.py: sink write with retry -/

/-- Outcome of one JDBC write attempt, as seen by the retry loop. -/
inductive WriteOutcome where
  | success
  | failure (msg : String)

/-- Bool-valued containment of a character sequence. -/
def charsContain (needle : List Char) : List Char → Bool
  | [] => needle.isEmpty
  | c :: t => needle.isPrefixOf (c :: t) || charsContain needle t

/-- The duplicate-key classification: `"duplicate key" in str(e).lower()`. -/
def isDuplicateKeyError (msg : String) : Bool :=
  charsContain ("duplicate key".data) (lowerString msg).data

/-- Result of the retry loop, carrying the number of the attempt it ended
on and the total seconds slept between attempts. -/
inductive RetryResult where
  | written (attemptsUsed totalDelay : Nat)
  | duplicatesSkipped (attemptsUsed totalDelay : Nat)
  | raised (msg : String) (attemptsUsed totalDelay : Nat)
deriving DecidableEq, Repr

def RetryResult.attempts : RetryResult → Nat
  | .written a _ => a
  | .duplicatesSkipped a _ => a
  | .raised _ a _ => a

def RetryResult.delay : RetryResult → Nat
  | .written _ d => d
  | .duplicatesSkipped _ d => d
  | .raised _ _ d => d

/-- The `for attempt in range(1, MAX_RETRIES + 1)` loop of
`write_to_postgres_with_retry`: success returns; a duplicate-key-classified
failure returns (treated as success); any other failure sleeps
`RETRY_DELAY_SECONDS` and retries while `attempt < MAX_RETRIES`, and is
re-raised on the last attempt. -/
def retryLoopFrom (outcome : Nat → WriteOutcome) (attempt totalDelay : Nat) :
    RetryResult :=
  match outcome attempt with
  | .success => .written attempt totalDelay
  | .failure msg =>
    if isDuplicateKeyError msg then .duplicatesSkipped attempt totalDelay
    else if h : attempt < Config.MAX_RETRIES then
      retryLoopFrom outcome (attempt + 1) (totalDelay + Config.RETRY_DELAY_SECONDS)
    else .raised msg attempt totalDelay
termination_by Config.MAX_RETRIES - attempt
decreasing_by simp_wf; omega

/-- Overall outcome of `write_to_postgres_with_retry` for one micro-batch. -/
inductive BatchOutcome where
  | emptySkipped
  | noValidRecords (quarantined : List CleanedRecord)
  | sinkResult (quarantined written : List CleanedRecord) (r : RetryResult)

/-- Model of `write_to_postgres_with_retry`: empty batches short-circuit; invalid
rows go to quarantine; the valid rows are deduplicated and handed to the
retry loop starting at attempt 1 with no sleep accumulated. -/
def write_to_postgres_with_retry (batch_df : List RawRecord)
    (outcome : Nat → WriteOutcome) : BatchOutcome :=
  if batch_df.isEmpty then .emptySkipped
  else
    let parts := clean_and_validate_data batch_df
    if parts.1.length = 0 then .noValidRecords parts.2
    else
      let deduped := deduplicate_events parts.1
      .sinkResult parts.2 deduped (retryLoopFrom outcome 1 0)

/-! ### spark_streaming_to_postgres.py: startup readiness polling -/

/-- The `for attempt in range(1, max_retries + 1)` loop of
`wait_for_postgres`: each failed attempt sleeps `delay` seconds; the loop
exits false after the last attempt.  Returns (ready, attempts made, total
seconds slept). -/
def waitForPostgresGo (connOk : Nat → Bool) (max_retries delay : Nat) :
    Nat → Nat → Bool × Nat × Nat
  | attempt, slept =>
    if h : attempt ≤ max_retries then
      if connOk attempt then (true, attempt, slept)
      else waitForPostgresGo connOk max_retries delay (attempt + 1) (slept + delay)
    else (false, max_retries, slept)
termination_by attempt _ => max_retries + 1 - attempt
decreasing_by simp_wf; omega

/-- Model of `wait_for_postgres` with its default arguments `max_retries=30`,
`delay=5`. -/
def wait_for_postgres (connOk : Nat → Bool) (max_retries delay : Nat) :
    Bool × Nat × Nat :=
  waitForPostgresGo connOk max_retries delay 1 0

/-- What `main` does with the readiness poll. -/
inductive MainResult where
  | startedStreaming
  | abortedPostgresUnavailable
deriving DecidableEq, Repr

/-- Model of `main`: the streaming job starts only when the readiness poll
succeeds; otherwise main logs a fatal error and returns without starting
the stream. -/
def mainStartup (connOk : Nat → Bool) : MainResult :=
  if (wait_for_postgres connOk 30 5).1 then .startedStreaming
  else .abortedPostgresUnavailable

/-- Well-formedness of the producer counters: every written file holds at
least one event row, and the two counters agree with the files actually
written. -/
def GenState.wf (st : GenState) : Prop :=
  (∀ f ∈ st.files, f.rows ≠ []) ∧
  st.total_events = (st.files.map fun f => f.rows.length).sum ∧
  st.total_files = st.files.length

end Ingest

namespace Ingest

/-! ### Supporting lemmas -/

theorem retryLoopFrom_success (outcome : Nat → WriteOutcome) (a d : Nat)
    (h : outcome a = .success) : retryLoopFrom outcome a d = .written a d := by
  rw [retryLoopFrom, h]

theorem retryLoopFrom_dup (outcome : Nat → WriteOutcome) (a d : Nat) (m : String)
    (h : outcome a = .failure m) (hd : isDuplicateKeyError m = true) :
    retryLoopFrom outcome a d = .duplicatesSkipped a d := by
  rw [retryLoopFrom, h]
  simp [hd]

theorem retryLoopFrom_fail_step (outcome : Nat → WriteOutcome) (a d b e : Nat)
    (m : String)
    (h : outcome a = .failure m) (hd : isDuplicateKeyError m = false)
    (hlt : a < Config.MAX_RETRIES) (hb : b = a + 1)
    (he : e = d + Config.RETRY_DELAY_SECONDS) :
    retryLoopFrom outcome a d = retryLoopFrom outcome b e := by
  subst hb he
  rw [retryLoopFrom, h]
  simp [hd, hlt]

theorem retryLoopFrom_fail_last (outcome : Nat → WriteOutcome) (a d : Nat) (m : String)
    (h : outcome a = .failure m) (hd : isDuplicateKeyError m = false)
    (hge : ¬ a < Config.MAX_RETRIES) :
    retryLoopFrom outcome a d = .raised m a d := by
  rw [retryLoopFrom, h]
  simp [hd, hge]

theorem retryLoopFrom_third_attempt (outcome : Nat → WriteOutcome) (d : Nat) :
    (retryLoopFrom outcome 3 d).attempts = 3 ∧
    (retryLoopFrom outcome 3 d).delay = d := by
  rcases h : outcome 3 with _ | m
  · rw [retryLoopFrom_success _ _ _ h]; exact ⟨rfl, rfl⟩
  · cases hd : isDuplicateKeyError m
    · rw [retryLoopFrom_fail_last _ _ _ _ h hd (by decide)]; exact ⟨rfl, rfl⟩
    · rw [retryLoopFrom_dup _ _ _ _ h hd]; exact ⟨rfl, rfl⟩

theorem retryLoopFrom_second_attempt (outcome : Nat → WriteOutcome) (d : Nat) :
    (2 ≤ (retryLoopFrom outcome 2 d).attempts ∧
      (retryLoopFrom outcome 2 d).attempts ≤ 3) ∧
    (retryLoopFrom outcome 2 d).delay =
      d + 5 * ((retryLoopFrom outcome 2 d).attempts - 2) := by
  rcases h : outcome 2 with _ | m
  · rw [retryLoopFrom_success _ _ _ h]
    exact ⟨⟨(by decide : (2:Nat) ≤ 2), (by decide : (2:Nat) ≤ 3)⟩, rfl⟩
  · cases hd : isDuplicateKeyError m
    · rw [retryLoopFrom_fail_step outcome 2 d 3 (d + 5) m h hd (by decide) rfl rfl]
      have h3 := retryLoopFrom_third_attempt outcome (d + 5)
      rw [h3.1, h3.2]
      exact ⟨⟨by omega, by omega⟩, by omega⟩
    · rw [retryLoopFrom_dup _ _ _ _ h hd]
      exact ⟨⟨(by decide : (2:Nat) ≤ 2), (by decide : (2:Nat) ≤ 3)⟩, rfl⟩

theorem retryLoopFrom_first_attempt (outcome : Nat → WriteOutcome) (d : Nat) :
    (1 ≤ (retryLoopFrom outcome 1 d).attempts ∧
      (retryLoopFrom outcome 1 d).attempts ≤ 3) ∧
    (retryLoopFrom outcome 1 d).delay =
      d + 5 * ((retryLoopFrom outcome 1 d).attempts - 1) := by
  rcases h : outcome 1 with _ | m
  · rw [retryLoopFrom_success _ _ _ h]
    exact ⟨⟨(by decide : (1:Nat) ≤ 1), (by decide : (1:Nat) ≤ 3)⟩, rfl⟩
  · cases hd : isDuplicateKeyError m
    · rw [retryLoopFrom_fail_step outcome 1 d 2 (d + 5) m h hd (by decide) rfl rfl]
      obtain ⟨⟨ha2, ha3⟩, hd2⟩ := retryLoopFrom_second_attempt outcome (d + 5)
      refine ⟨⟨by omega, ha3⟩, ?_⟩
      rw [hd2]
      omega
    · rw [retryLoopFrom_dup _ _ _ _ h hd]
      exact ⟨⟨(by decide : (1:Nat) ≤ 1), (by decide : (1:Nat) ≤ 3)⟩, rfl⟩

theorem optAnd_eq_some_true_iff (x y : Option Bool) :
    optAnd x y = some true ↔ x = some true ∧ y = some true := by
  rcases x with _ | b
  · rcases y with _ | c
    · simp [optAnd]
    · cases c <;> simp [optAnd]
  · rcases y with _ | c
    · cases b <;> simp [optAnd]
    · cases b <;> cases c <;> simp [optAnd]

/-! ### C6: every generated event is valid -/

theorem getD_mod_mem {α : Type} (l : List α) (i : Nat) (d : α)
    (h : 0 < l.length) : l.getD (i % l.length) d ∈ l := by
  have hlt : i % l.length < l.length := Nat.mod_lt _ h
  rw [List.getD_eq_getElem?_getD, List.getElem?_eq_getElem hlt]
  simp

theorem select_event_type_mem (rand : ℚ) :
    select_event_type rand ∈ Config.VALID_EVENT_TYPES := by
  simp only [select_event_type, EVENT_TYPES, selectEventTypeGo,
    Config.VALID_EVENT_TYPES]
  split_ifs <;> simp

theorem round2_pos (q : ℚ) (h : (9.99:ℚ) ≤ q) : 0 < round2 q := by
  have h1 : (999 : ℚ) ≤ q * 100 := by linarith
  have h2 := abs_sub_round (q * 100)
  rw [abs_le] at h2
  have h5 : (0:ℚ) < ((round (q * 100) : ℤ) : ℚ) := by linarith [h2.2]
  show (0:ℚ) < ((round (q * 100) : ℤ) : ℚ) / 100
  exact div_pos h5 (by norm_num)

theorem catalog_sound :
    ∀ c ∈ CATEGORIES, 0 < c.2.length ∧
      ∀ p ∈ c.2, (9.99:ℚ) ≤ p.2.1 ∧ p.2.1 ≤ p.2.2 := by
  intro c hc
  simp only [CATEGORIES] at hc
  fin_cases hc <;>
    refine ⟨by norm_num, ?_⟩ <;>
    intro p hp <;>
    fin_cases hp <;>
    norm_num

theorem select_product_spec (uniform : ℚ → ℚ → ℚ)
    (hu : ∀ a b : ℚ, a ≤ b → a ≤ uniform a b ∧ uniform a b ≤ b)
    (catIdx prodIdx : Nat) :
    ∃ c ∈ CATEGORIES, ∃ p ∈ c.2,
      select_product uniform catIdx prodIdx =
        (c.1, p.1, round2 (uniform p.2.1 p.2.2)) ∧
      p.2.1 ≤ uniform p.2.1 p.2.2 ∧ uniform p.2.1 p.2.2 ≤ p.2.2 ∧
      0 < (select_product uniform catIdx prodIdx).2.2 := by
  have hclen : 0 < CATEGORIES.length := by norm_num [CATEGORIES]
  have hcm : selectedCategory catIdx ∈ CATEGORIES := getD_mod_mem _ _ _ hclen
  obtain ⟨hplen, hall⟩ := catalog_sound _ hcm
  have hpm : selectedProduct catIdx prodIdx ∈ (selectedCategory catIdx).2 :=
    getD_mod_mem _ _ _ hplen
  obtain ⟨hmin, hminmax⟩ := hall _ hpm
  obtain ⟨hu1, hu2⟩ := hu _ _ hminmax
  refine ⟨selectedCategory catIdx, hcm, selectedProduct catIdx prodIdx, hpm,
    rfl, hu1, hu2, ?_⟩
  exact round2_pos _ (le_trans hmin hu1)

/-- C6: for every outcome of the random draws (with `uniform` satisfying
the `random.uniform` range contract), a generated event has positive
price — namely the selected product's [min_price, max_price] sample
rounded to two decimals — and an `event_type` in
{view, add_to_cart, purchase} (with `view` as the fallback). -/
theorem generated_event_price_pos_and_type_valid (uniform : ℚ → ℚ → ℚ)
    (hu : ∀ a b : ℚ, a ≤ b → a ≤ uniform a b ∧ uniform a b ≤ b)
    (catIdx prodIdx : Nat) (rand : ℚ) (eu uu pu now : String) :
    0 < (generate_event uniform catIdx prodIdx rand eu uu pu now).price ∧
    (generate_event uniform catIdx prodIdx rand eu uu pu now).event_type ∈
      Config.VALID_EVENT_TYPES ∧
    ∃ c ∈ CATEGORIES, ∃ p ∈ c.2,
      (generate_event uniform catIdx prodIdx rand eu uu pu now).price =
        round2 (uniform p.2.1 p.2.2) ∧
      p.2.1 ≤ uniform p.2.1 p.2.2 ∧ uniform p.2.1 p.2.2 ≤ p.2.2 := by
  obtain ⟨c, hc, p, hp, heq, hu1, hu2, hpos⟩ :=
    select_product_spec uniform hu catIdx prodIdx
  refine ⟨hpos, select_event_type_mem rand, c, hc, p, hp, ?_, hu1, hu2⟩
  show (select_product uniform catIdx prodIdx).2.2 = _
  rw [heq]

/-- C6 witness: the theorem applied to the degenerate uniform sampler
that returns the lower bound, at the first catalog indices. -/
theorem generated_event_price_pos_and_type_valid_witness :
    0 < (generate_event (fun a _ => a) 0 0 0 "e" "u" "p" "t").price ∧
    (generate_event (fun a _ => a) 0 0 0 "e" "u" "p" "t").event_type ∈
      Config.VALID_EVENT_TYPES ∧
    ∃ c ∈ CATEGORIES, ∃ p ∈ c.2,
      (generate_event (fun a _ => a) 0 0 0 "e" "u" "p" "t").price =
        round2 ((fun (a : ℚ) (_ : ℚ) => a) p.2.1 p.2.2) ∧
      p.2.1 ≤ (fun (a : ℚ) (_ : ℚ) => a) p.2.1 p.2.2 ∧
      (fun (a : ℚ) (_ : ℚ) => a) p.2.1 p.2.2 ≤ p.2.2 :=
  generated_event_price_pos_and_type_valid (fun a _ => a)
    (fun a b h => ⟨le_refl a, h⟩) 0 0 0 "e" "u" "p" "t"

/-! ### C7: graceful shutdown of the producer loop -/

theorem runLoop_stopped (shutdown durationHit : Nat → Bool) (gen : Nat → Event)
    (batch_size fuel t evIdx : Nat) (st : GenState)
    (h : shutdown t = true) :
    runLoop shutdown durationHit gen batch_size fuel t evIdx st = st := by
  cases fuel <;> simp [runLoop, h]

theorem fillBatch_shutdown (shutdown : Nat → Bool) (gen : Nat → Event) :
    ∀ (k n t evIdx : Nat), k < n →
      (∀ i, i < k → shutdown (t + i) = false) →
      shutdown (t + k) = true →
      fillBatch shutdown gen t evIdx n =
        ((List.range k).map (fun j => gen (evIdx + j)), t + k + 1) := by
  intro k
  induction k with
  | zero =>
    intro n t evIdx hk hf ht
    cases n with
    | zero => omega
    | succ m =>
      rw [fillBatch]
      simp only [Nat.add_zero] at ht
      simp [ht]
  | succ k ih =>
    intro n t evIdx hk hf ht
    cases n with
    | zero => omega
    | succ m =>
      have h0 : shutdown t = false := by simpa using hf 0 (by omega)
      rw [fillBatch]
      simp only [h0, Bool.false_eq_true, if_false]
      have hrest := ih m (t + 1) (evIdx + 1) (by omega)
        (fun i hi => by
          have := hf (i + 1) (by omega)
          simpa [show t + (i + 1) = t + 1 + i from by omega] using this)
        (by simpa [show t + (k + 1) = t + 1 + k from by omega] using ht)
      rw [hrest]
      simp only [Prod.mk.injEq]
      refine ⟨?_, by omega⟩
      rw [List.range_succ_eq_map, List.map_cons, List.map_map]
      simp only [Nat.add_zero]
      refine congrArg _ ?_
      apply List.map_congr_left
      intro j hj
      simp only [Function.comp]
      refine congrArg _ ?_
      omega

/-- C7: when the shutdown flag becomes true after k events of the current
batch were generated (k < batch_size, the flag staying true once set), no
further event of that batch is generated, the k in-flight events are
flushed as one final batch file when k > 0 (and no file is written when
k = 0), and the loop stops; the flag is only ever read at the outer loop
boundary and before each rate-limited event generation. -/
theorem producer_graceful_shutdown (shutdown durationHit : Nat → Bool)
    (gen : Nat → Event) (batch_size fuel t evIdx k : Nat) (st : GenState)
    (mono : ∀ i j, i ≤ j → shutdown i = true → shutdown j = true)
    (hk : k < batch_size)
    (hfalse : ∀ i, i ≤ t + k → shutdown i = false)
    (htrue : shutdown (t + k + 1) = true)
    (hdur : durationHit t = false) :
    runLoop shutdown durationHit gen batch_size (fuel + 1) t evIdx st =
      if k = 0 then st
      else { total_events := st.total_events + k
             total_files := st.total_files + 1
             files := st.files ++
               [write_events_to_csv ((List.range k).map fun j => gen (evIdx + j))] } := by
  have h0 : shutdown t = false := hfalse t (by omega)
  have hfill := fillBatch_shutdown shutdown gen k batch_size (t + 1) evIdx hk
    (fun i hi => hfalse (t + 1 + i) (by omega))
    (by simpa [show t + 1 + k = t + k + 1 from by omega] using htrue)
  have hstop : shutdown (t + k + 2) = true := mono _ _ (by omega) htrue
  rw [runLoop]
  simp only [h0, hdur, Bool.false_eq_true, if_false, hfill]
  rw [show t + 1 + k + 1 = t + k + 2 from by omega]
  by_cases hk0 : k = 0
  · subst hk0
    simp only [List.range_zero, List.map_nil, List.isEmpty_nil, if_true,
      List.length_nil, Nat.add_zero]
    rw [runLoop_stopped _ _ _ _ _ _ _ _ hstop]
  · have hne : ((List.range k).map fun j => gen (evIdx + j)).isEmpty = false := by
      simp [List.isEmpty_iff, List.range_eq_nil, hk0]
    simp only [hne, Bool.false_eq_true, if_false, List.length_map,
      List.length_range]
    rw [runLoop_stopped _ _ _ _ _ _ _ _ hstop]
    simp [hk0]

/-- C7 witness: the theorem at a flag raised at step 3, with batch size 5
and two events already generated. -/
theorem producer_graceful_shutdown_witness :
    runLoop (fun i => decide (3 ≤ i)) (fun _ => false)
      (fun _ => { event_id := "e", user_id := "u", product_id := "p",
                  product_name := "n", category := "c", price := 1,
                  event_type := "view", timestamp := "t" })
      5 1 0 0 ⟨0, 0, []⟩ =
      { total_events := 2, total_files := 1,
        files := [write_events_to_csv
          [{ event_id := "e", user_id := "u", product_id := "p",
             product_name := "n", category := "c", price := 1,
             event_type := "view", timestamp := "t" },
           { event_id := "e", user_id := "u", product_id := "p",
             product_name := "n", category := "c", price := 1,
             event_type := "view", timestamp := "t" }]] } := by
  have h := producer_graceful_shutdown (fun i => decide (3 ≤ i)) (fun _ => false)
    (fun _ => { event_id := "e", user_id := "u", product_id := "p",
                product_name := "n", category := "c", price := 1,
                event_type := "view", timestamp := "t" })
    5 0 0 0 2 ⟨0, 0, []⟩
    (fun i j hij hi => by simp_all; omega)
    (by omega) (by decide) (by decide) rfl
  simpa [List.range_succ] using h

/-! ### C10: no empty batch file is ever written -/

/-- C10: the producer loop writes a batch file only when the in-memory
event list is non-empty, so every written file has at least one event
row, and `total_events`/`total_files` count exactly the rows and files
actually written (they are bumped only for written files). -/
theorem producer_never_writes_empty_file (shutdown durationHit : Nat → Bool)
    (gen : Nat → Event) (batch_size : Nat) :
    ∀ (fuel t evIdx : Nat) (st : GenState), GenState.wf st →
      GenState.wf (runLoop shutdown durationHit gen batch_size fuel t evIdx st) := by
  intro fuel
  induction fuel with
  | zero =>
    intro t evIdx st h
    simpa [runLoop] using h
  | succ fuel ih =>
    intro t evIdx st h
    rw [runLoop]
    cases h1 : shutdown t
    · cases h2 : durationHit t
      · simp only [Bool.false_eq_true, if_false]
        cases h3 : ((fillBatch shutdown gen (t + 1) evIdx batch_size).1).isEmpty
        · simp only [Bool.false_eq_true, if_false]
          apply ih
          obtain ⟨hfiles, hsum, hcount⟩ := h
          refine ⟨?_, ?_, ?_⟩
          · intro f hf
            rcases List.mem_append.mp hf with hf | hf
            · exact hfiles f hf
            · rcases List.mem_singleton.mp hf with rfl
              simpa [write_events_to_csv, List.isEmpty_iff] using h3
          · simp [write_events_to_csv, hsum]
          · simp [hcount]
        · simp only [if_true]
          exact ih _ _ _ h
      · simp only [if_true]
        exact h
    · simp only [if_true]
      exact h

/-- C10 witness: the invariant applied to the empty starting state with a
concrete schedule. -/
theorem producer_never_writes_empty_file_witness :
    GenState.wf (runLoop (fun i => decide (3 ≤ i)) (fun _ => false)
      (fun _ => { event_id := "e", user_id := "u", product_id := "p",
                  product_name := "n", category := "c", price := 1,
                  event_type := "view", timestamp := "t" })
      3 2 0 0 ⟨0, 0, []⟩) :=
  producer_never_writes_empty_file _ _ _ 3 2 0 0 ⟨0, 0, []⟩
    ⟨fun f hf => absurd hf (List.not_mem_nil f), rfl, rfl⟩

/-! ### C2: sink write retry policy -/

/-- C2: for every non-empty batch with valid records the sink write runs
the retry loop, which makes at most `MAX_RETRIES = 3` attempts with a
fixed `RETRY_DELAY_SECONDS = 5` sleep between attempts (total sleep is
5·(attempts−1)); a duplicate-key-classified failure returns success
immediately with no further attempts; non-duplicate failures are retried,
and when all 3 attempts fail the last error is raised to the caller. -/
theorem retry_policy_conforms (outcome : Nat → WriteOutcome) :
    (retryLoopFrom outcome 1 0).attempts ≤ Config.MAX_RETRIES
  ∧ (retryLoopFrom outcome 1 0).delay =
      Config.RETRY_DELAY_SECONDS * ((retryLoopFrom outcome 1 0).attempts - 1)
  ∧ (∀ m, outcome 1 = .failure m → isDuplicateKeyError m = true →
      retryLoopFrom outcome 1 0 = .duplicatesSkipped 1 0)
  ∧ (∀ m1 m2, outcome 1 = .failure m1 → isDuplicateKeyError m1 = false →
      outcome 2 = .failure m2 → isDuplicateKeyError m2 = false →
      outcome 3 = .success →
      retryLoopFrom outcome 1 0 = .written 3 10)
  ∧ (∀ m1 m2 m3, outcome 1 = .failure m1 → isDuplicateKeyError m1 = false →
      outcome 2 = .failure m2 → isDuplicateKeyError m2 = false →
      outcome 3 = .failure m3 → isDuplicateKeyError m3 = false →
      retryLoopFrom outcome 1 0 = .raised m3 3 10)
  ∧ (∀ batch_df : List RawRecord, batch_df ≠ [] →
      (clean_and_validate_data batch_df).1.length ≠ 0 →
      write_to_postgres_with_retry batch_df outcome =
        .sinkResult (clean_and_validate_data batch_df).2
          (deduplicate_events (clean_and_validate_data batch_df).1)
          (retryLoopFrom outcome 1 0)) := by
  have h1 := retryLoopFrom_first_attempt outcome 0
  refine ⟨by simpa [Config.MAX_RETRIES] using h1.1.2, ?_, ?_, ?_, ?_, ?_⟩
  · rw [h1.2]
    simp [Config.RETRY_DELAY_SECONDS, Nat.mul_comm]
  · intro m hm hd
    rw [retryLoopFrom_dup _ _ _ _ hm hd]
  · intro m1 m2 hm1 hd1 hm2 hd2 hs
    rw [retryLoopFrom_fail_step outcome 1 0 2 5 m1 hm1 hd1 (by decide) rfl rfl,
      retryLoopFrom_fail_step outcome 2 5 3 10 m2 hm2 hd2 (by decide) rfl rfl,
      retryLoopFrom_success _ _ _ hs]
  · intro m1 m2 m3 hm1 hd1 hm2 hd2 hm3 hd3
    rw [retryLoopFrom_fail_step outcome 1 0 2 5 m1 hm1 hd1 (by decide) rfl rfl,
      retryLoopFrom_fail_step outcome 2 5 3 10 m2 hm2 hd2 (by decide) rfl rfl,
      retryLoopFrom_fail_last _ _ _ _ hm3 hd3 (by decide)]
  · intro batch_df hne hval
    rw [write_to_postgres_with_retry]
    rw [if_neg (by simpa [List.isEmpty_iff] using hne), if_neg hval]

/-- C2 witness: a write that fails twice with a non-duplicate error and
succeeds on the third attempt ends as a single successful write after two
5-second sleeps. -/
theorem retry_policy_conforms_witness :
    retryLoopFrom
      (fun k => if k < 3 then .failure "connection refused" else .success)
      1 0 = .written 3 10 :=
  (retry_policy_conforms
    (fun k => if k < 3 then .failure "connection refused" else .success)).2.2.2.1
    "connection refused" "connection refused" rfl (by decide) rfl (by decide) rfl

/-! ### C8: startup readiness polling -/

theorem waitForPostgresGo_attempts_le (connOk : Nat → Bool) (m d : Nat) :
    ∀ j attempt slept, m + 1 - attempt ≤ j →
    (waitForPostgresGo connOk m d attempt slept).2.1 ≤ m := by
  intro j
  induction j with
  | zero =>
    intro attempt slept hj
    rw [waitForPostgresGo, dif_neg (by omega)]
  | succ j ih =>
    intro attempt slept hj
    rw [waitForPostgresGo]
    by_cases hle : attempt ≤ m
    · rw [dif_pos hle]
      cases hc : connOk attempt
      · simp only [Bool.false_eq_true, if_false]
        exact ih (attempt + 1) (slept + d) (by omega)
      · simp only [if_true]
        exact hle
    · rw [dif_neg hle]

theorem waitForPostgresGo_all_fail (connOk : Nat → Bool) (m d : Nat) :
    ∀ j attempt slept, m + 1 - attempt ≤ j → attempt ≤ m + 1 →
    (∀ a, attempt ≤ a → a ≤ m → connOk a = false) →
    waitForPostgresGo connOk m d attempt slept =
      (false, m, slept + (m + 1 - attempt) * d) := by
  intro j
  induction j with
  | zero =>
    intro attempt slept hj hle hall
    rw [waitForPostgresGo, dif_neg (by omega)]
    have : m + 1 - attempt = 0 := by omega
    rw [this]
    simp
  | succ j ih =>
    intro attempt slept hj hle hall
    by_cases hm : attempt ≤ m
    · rw [waitForPostgresGo, dif_pos hm, hall attempt le_rfl hm]
      simp only [Bool.false_eq_true, if_false]
      rw [ih (attempt + 1) (slept + d) (by omega) (by omega)
        (fun a ha1 ha2 => hall a (by omega) ha2)]
      have hsplit : m + 1 - attempt = (m - attempt) + 1 := by omega
      have hsplit2 : m + 1 - (attempt + 1) = m - attempt := by omega
      rw [hsplit, hsplit2, Nat.succ_mul]
      refine congrArg _ (congrArg _ ?_)
      omega
    · rw [waitForPostgresGo, dif_neg hm]
      have : m + 1 - attempt = 0 := by omega
      rw [this]
      simp

/-- C8: the readiness poll of the sink makes at most 30 connection
attempts (the defaults `max_retries=30`, `delay=5`); it is a total
function, so it always terminates; and when every attempt fails it
returns false after 30 attempts and 150 seconds of accumulated delay, in
which case `main` aborts startup without starting the streaming job. -/
theorem startup_polling_bounded (connOk : Nat → Bool) :
    (wait_for_postgres connOk 30 5).2.1 ≤ 30
  ∧ ((∀ a, 1 ≤ a → a ≤ 30 → connOk a = false) →
      wait_for_postgres connOk 30 5 = (false, 30, 150) ∧
      mainStartup connOk = .abortedPostgresUnavailable) := by
  constructor
  · exact waitForPostgresGo_attempts_le connOk 30 5 30 1 0 (by omega)
  · intro hall
    have h := waitForPostgresGo_all_fail connOk 30 5 30 1 0 (by omega) (by omega)
      (fun a ha1 ha2 => hall a ha1 ha2)
    have heq : wait_for_postgres connOk 30 5 = (false, 30, 150) := by
      rw [wait_for_postgres, h]
    refine ⟨heq, ?_⟩
    rw [mainStartup, heq]
    simp

/-- C8 witness: the all-fail conclusion at the constantly failing
connection test. -/
theorem startup_polling_bounded_witness :
    wait_for_postgres (fun _ => false) 30 5 = (false, 30, 150) ∧
    mainStartup (fun _ => false) = .abortedPostgresUnavailable :=
  (startup_polling_bounded (fun _ => false)).2 (fun _ _ _ => rfl)

/-! ### C4: deduplication -/

theorem dropDupByKey_filter {α κ : Type} [DecidableEq κ] (key : α → κ)
    (l : List α) (seen : List κ) (k : κ) :
    (dropDupByKey key seen l).filter (fun r => decide (key r = k)) =
      if k ∈ seen then [] else
        (l.filter (fun r => decide (key r = k))).take 1 := by
  induction l generalizing seen with
  | nil => simp [dropDupByKey]
  | cons r rs ih =>
    rw [dropDupByKey]
    by_cases hmem : key r ∈ seen
    · rw [if_pos hmem, ih]
      by_cases hks : k ∈ seen
      · simp [hks]
      · have hne : ¬ key r = k := fun h => hks (h ▸ hmem)
        simp [hks, List.filter_cons, hne]
    · rw [if_neg hmem, List.filter_cons]
      by_cases hk : key r = k
      · subst hk
        rw [ih]
        simp [hmem, List.filter_cons]
      · rw [ih]
        have hiff : (k ∈ key r :: seen) ↔ (k ∈ seen) := by
          constructor
          · intro hmem2
            rcases List.mem_cons.mp hmem2 with he | he
            · exact absurd he.symm hk
            · exact he
          · intro hmem2
            exact List.mem_cons_of_mem _ hmem2
        by_cases hks : k ∈ seen
        · simp [hks, hiff.mpr hks, hk]
        · have hnc : ¬ (k ∈ key r :: seen) := fun hx => hks (hiff.mp hx)
          simp [hks, hnc, hk, List.filter_cons]

/-- C4: `deduplicate_events` keeps, for every `event_id` value, exactly
the first record of the input carrying it (so at most one record per
`event_id`, deterministically in input order); in particular a two-record
batch sharing `event_id = "e1"` with different payloads yields exactly
the first of the two. -/
theorem deduplicate_events_first_seen :
    (∀ (df : List CleanedRecord) (k : Option String),
      (deduplicate_events df).filter (fun r => decide (r.event_id = k)) =
        (df.filter (fun r => decide (r.event_id = k))).take 1)
  ∧ (∀ r1 r2 : CleanedRecord, r1.event_id = some "e1" →
      r2.event_id = some "e1" →
      (deduplicate_events [r1, r2]).filter
        (fun r => decide (r.event_id = some "e1")) = [r1]) := by
  constructor
  · intro df k
    have h := dropDupByKey_filter (fun r : CleanedRecord => r.event_id) df [] k
    simpa [deduplicate_events] using h
  · intro r1 r2 h1 h2
    have h := dropDupByKey_filter (fun r : CleanedRecord => r.event_id)
      [r1, r2] [] (some "e1")
    simp only [deduplicate_events] at *
    rw [h]
    simp [List.filter_cons, h1, h2]

/-- C4 witness: two concrete records sharing `event_id = "e1"` with
different payloads deduplicate to the first record alone. -/
theorem deduplicate_events_first_seen_witness :
    (deduplicate_events
      [{ event_id := some "e1", user_id := some "u1", product_id := some "p1",
         product_name := some "n1", category := some "c", price := some 10,
         event_type := some "view", timestamp := some "t",
         event_timestamp := none },
       { event_id := some "e1", user_id := some "u2", product_id := some "p2",
         product_name := some "n2", category := some "c", price := some 20,
         event_type := some "purchase", timestamp := some "t",
         event_timestamp := none }]).filter
      (fun r => decide (r.event_id = some "e1")) =
      [{ event_id := some "e1", user_id := some "u1", product_id := some "p1",
         product_name := some "n1", category := some "c", price := some 10,
         event_type := some "view", timestamp := some "t",
         event_timestamp := none }] :=
  deduplicate_events_first_seen.2 _ _ rfl rfl

/-! ### C1: validation predicate -/

/-- C1 counterexample: a record whose `user_id` trims to the empty string
(but is non-null) is classified valid by `clean_and_validate_data`,
because the code checks only `isNotNull`; the claim says such a record is
classified invalid. -/
theorem validation_accepts_empty_trimmed_user_id :
    (clean_and_validate_data
      [{ event_id := some "e1", user_id := some "   ", product_id := some "p1",
         product_name := some "n", category := some "c", price := some 10,
         event_type := some "VIEW", timestamp := some "2024-01-01 12:00:00" }]).1.length = 1 ∧
    (cleanRecord
      { event_id := some "e1", user_id := some "   ", product_id := some "p1",
        product_name := some "n", category := some "c", price := some 10,
        event_type := some "VIEW", timestamp := some "2024-01-01 12:00:00" }).user_id =
      some "" := by
  decide

/-- C1 (amended): `clean_and_validate_data` classifies a record as valid
iff `event_id`, `user_id` and `product_id` are non-null (emptiness after
trimming is NOT checked), the trimmed, case-normalized `event_type` is in
the valid set, `price` is non-null and positive, and the timestamp parses
with format `yyyy-MM-dd HH:mm:ss`. -/
theorem validation_classifies_valid_iff (r : RawRecord) :
    is_valid_col (cleanRecord r) = some true ↔
      (r.event_id.isSome = true ∧ r.user_id.isSome = true ∧
       r.product_id.isSome = true ∧
       (∃ et, r.event_type = some et ∧
          Config.VALID_EVENT_TYPES.contains (lowerString (sparkTrim et)) = true) ∧
       (∃ p, r.price = some p ∧ 0 < p) ∧
       (∃ ts, r.timestamp = some ts ∧ (to_timestamp ts).isSome = true)) := by
  rcases r with ⟨eid, uid, pid, pn, cat, pr, et, ts⟩
  simp only [is_valid_col, optAnd_eq_some_true_iff, cleanRecord]
  cases eid <;> cases uid <;> cases pid <;> cases et <;> cases pr <;> cases ts <;>
    simp [Option.isSome, decide_eq_true_eq]

/-! ### C5: quarantine column set -/

/-- C5 counterexample: the quarantined rows do not carry exactly the
eight source columns — the derived `event_timestamp` column, added during
cleaning, is still present in `invalid_df` (only `is_valid` is dropped). -/
theorem quarantine_schema_has_extra_column :
    invalidSchema ≠ sourceSchema ∧
    "event_timestamp" ∈ invalidSchema ∧ "event_timestamp" ∉ sourceSchema := by
  decide

/-- C5 (amended): quarantined rows keep all eight source columns, with
only the internal `is_valid` flag removed, but additionally carry the
derived `event_timestamp` column. -/
theorem quarantine_schema_is_source_plus_parsed_timestamp :
    invalidSchema = sourceSchema ++ ["event_timestamp"] ∧
    "is_valid" ∉ invalidSchema := by
  decide

/-! ### C3 and C9: RateLimiter -/

/-- C3 counterexample: with rate 0 the limiter is constructed without
rejection and the very first `wait()` call sleeps a full second — the
configuration is neither rejected nor treated as unlimited. -/
theorem rate_limiter_zero_rate_first_wait_sleeps :
    0 < (RateLimiter.wait (RateLimiter.init 0 0) 0 0).2 := by
  norm_num [RateLimiter.wait, RateLimiter.init]

/-- C3 (amended): for every configured rate R ≤ 0 the constructor
accepts the configuration (with the documented interval fallback of 1.0),
but every `wait()` call performs a positive sleep, since the counter
(always ≥ 0) already meets the limit check; the limiter throttles instead
of being unlimited. -/
theorem rate_limiter_nonpositive_rate_blocks (R : Int) (hR : R ≤ 0) :
    (∀ now : ℚ, (RateLimiter.init R now).interval = 1) ∧
    (∀ (s : RateLimiterState) (current resetT : ℚ),
      s.events_per_second = R → 0 ≤ s.events_this_second →
      s.second_start ≤ current →
      0 < (RateLimiter.wait s current resetT).2) := by
  constructor
  · intro now
    simp only [RateLimiter.init]
    rw [if_neg (by omega)]
  · intro s current resetT hs hc hts
    simp only [RateLimiter.wait]
    split_ifs with h1 h2 h3 h4 h5 <;> simp_all <;> first | omega | linarith

/-- C3 witness: the amended theorem applied at R = -1 and a concrete
limiter state one half-second into its window. -/
theorem rate_limiter_nonpositive_rate_blocks_witness :
    0 < (RateLimiter.wait
      { events_per_second := -1, interval := 1, last_event_time := 0,
        events_this_second := 0, second_start := 0 } (1/2) (3/2)).2 :=
  (rate_limiter_nonpositive_rate_blocks (-1) (by norm_num)).2
    _ (1/2) (3/2) rfl (by norm_num) (by norm_num)

/-- C9: after any `wait()` call on a limiter with rate R ≥ 1 and a
non-negative counter, the counter satisfies 1 ≤ events_this_second ≤ R:
it is bumped exactly once (to `old + 1`, or to 1 after a window or limit
reset) and never exceeds R. -/
theorem rate_limiter_wait_counter_invariant (s : RateLimiterState)
    (current resetT : ℚ) (hR : 1 ≤ s.events_per_second)
    (hc : 0 ≤ s.events_this_second) :
    1 ≤ (RateLimiter.wait s current resetT).1.events_this_second ∧
    (RateLimiter.wait s current resetT).1.events_this_second ≤
      s.events_per_second ∧
    ((RateLimiter.wait s current resetT).1.events_this_second = 1 ∨
     (RateLimiter.wait s current resetT).1.events_this_second =
       s.events_this_second + 1) := by
  simp only [RateLimiter.wait]
  split_ifs <;> simp_all <;> omega

/-- C9 witness: the invariant applied to a fresh limiter at rate 5. -/
theorem rate_limiter_wait_counter_invariant_witness :
    1 ≤ (RateLimiter.wait (RateLimiter.init 5 0) 0 0).1.events_this_second ∧
    (RateLimiter.wait (RateLimiter.init 5 0) 0 0).1.events_this_second ≤ 5 ∧
    ((RateLimiter.wait (RateLimiter.init 5 0) 0 0).1.events_this_second = 1 ∨
     (RateLimiter.wait (RateLimiter.init 5 0) 0 0).1.events_this_second = 0 + 1) :=
  rate_limiter_wait_counter_invariant (RateLimiter.init 5 0) 0 0
    (by decide) (by decide)

end Ingest
